import Mathlib

/-!
Shallow embedding of `src/windows/service.c` from the stubby repository
(the Windows Service Control Manager integration shim), together with
proofs about the embedded operations.

OS calls and resolution-engine calls are modelled by environments that
record the outcome of each fallible call; each embedded function returns
the trace of observable effects it performs (status reports, teardown
actions, event-log emissions, registry/service-manager state changes).
-/

namespace Stubby

/-! ### Win32 constants (values from the Windows SDK headers) -/

def SERVICE_STOPPED : Nat := 1
def SERVICE_START_PENDING : Nat := 2
def SERVICE_STOP_PENDING : Nat := 3
def SERVICE_RUNNING : Nat := 4
def SERVICE_ACCEPT_STOP : Nat := 1
def SERVICE_CONTROL_STOP : Nat := 1
def SERVICE_CONTROL_INTERROGATE : Nat := 4

def WAIT_OBJECT_0 : Nat := 0
def WAIT_TIMEOUT : Nat := 258
def WAIT_FAILED : Nat := 4294967295

def EVENTLOG_ERROR_TYPE : Nat := 1
def EVENTLOG_WARNING_TYPE : Nat := 2
def EVENTLOG_INFORMATION_TYPE : Nat := 4

/-! ### getdns log levels (values from getdns headers) -/

def GETDNS_LOG_EMERG : Nat := 0
def GETDNS_LOG_ALERT : Nat := 1
def GETDNS_LOG_CRIT : Nat := 2
def GETDNS_LOG_ERR : Nat := 3
def GETDNS_LOG_WARNING : Nat := 4
def GETDNS_LOG_NOTICE : Nat := 5
def GETDNS_LOG_INFO : Nat := 6
def GETDNS_LOG_DEBUG : Nat := 7

/-- Modelled from the spec: the numeric event identifiers
`SVC_EMERGENCY` .. `SVC_DEBUG` are defined in `windowsservice.h`
(generated from the message catalog), which is not part of the visible
source; the spec only requires a distinct identifier per severity. -/
def SVC_EMERGENCY : Nat := 1

/-- Modelled from the spec: see `SVC_EMERGENCY`. -/
def SVC_ALERT : Nat := 2

/-- Modelled from the spec: see `SVC_EMERGENCY`. -/
def SVC_CRITICAL : Nat := 3

/-- Modelled from the spec: see `SVC_EMERGENCY`. -/
def SVC_ERROR : Nat := 4

/-- Modelled from the spec: see `SVC_EMERGENCY`. -/
def SVC_WARNING : Nat := 5

/-- Modelled from the spec: see `SVC_EMERGENCY`. -/
def SVC_NOTICE : Nat := 6

/-- Modelled from the spec: see `SVC_EMERGENCY`. -/
def SVC_INFO : Nat := 7

/-- Modelled from the spec: see `SVC_EMERGENCY`. -/
def SVC_DEBUG : Nat := 8

/-! ### Logging bridge (`report_verror`, service.c lines 111-183) -/

/-- Observable effects of the logging bridge. -/
inductive LogEffect where
  | reportEvent (eventType : Nat) (eventId : Nat)
  | deregisterSource
deriving DecidableEq, Repr

/-- The `switch (level)` of `report_verror` (service.c lines 123-165):
maps a getdns severity to the pair (Windows event type, event id).
Every level other than the seven named ones falls to the `default`
branch (information type, `SVC_DEBUG`), exactly as in the source. -/
def report_event_class (level : Nat) : Nat × Nat :=
  if level = GETDNS_LOG_EMERG then (EVENTLOG_ERROR_TYPE, SVC_EMERGENCY)
  else if level = GETDNS_LOG_ALERT then (EVENTLOG_ERROR_TYPE, SVC_ALERT)
  else if level = GETDNS_LOG_CRIT then (EVENTLOG_ERROR_TYPE, SVC_CRITICAL)
  else if level = GETDNS_LOG_ERR then (EVENTLOG_ERROR_TYPE, SVC_ERROR)
  else if level = GETDNS_LOG_WARNING then (EVENTLOG_WARNING_TYPE, SVC_WARNING)
  else if level = GETDNS_LOG_NOTICE then (EVENTLOG_WARNING_TYPE, SVC_NOTICE)
  else if level = GETDNS_LOG_INFO then (EVENTLOG_INFORMATION_TYPE, SVC_INFO)
  else (EVENTLOG_INFORMATION_TYPE, SVC_DEBUG)

/-- Function `report_verror` (service.c lines 111-183).  `registerOk` is the
outcome of `RegisterEventSource`: when it returns `NULL` the function
returns immediately and nothing is emitted; otherwise it reports one
event (type and id from the severity switch) and deregisters the
source. -/
def report_verror (registerOk : Bool) (level : Nat) : List LogEffect :=
  if registerOk = false then []
  else
    [LogEffect.reportEvent (report_event_class level).1 (report_event_class level).2,
     LogEffect.deregisterSource]

/-! ### Service main thread (`SvcInit`, service.c lines 552-635) -/

/-- Observable effects of the service main thread and control handler. -/
inductive Ev where
  | report (state : Nat) (exitCode : Nat) (waitHint : Nat)
  | stubbyError (msg : String)
  | stubbyDebug (msg : String)
  | reportWinErr (op : String)
  | reportGetdnsErr (op : String)
  | setLogging (level : Nat)
  | initConfig
  | readConfig
  | serverListen (dnssecFlag : Nat)
  | getEventloop
  | runOnce
  | destroyContext
  | deleteConfig
  | closeStopHandle
  | setStopEvent
deriving DecidableEq, Repr

/-- The process-wide global `int dnssec_validation = 0;`
(service.c line 75).  It is never assigned anywhere in the source. -/
def dnssec_validation : Nat := 0

/-- Environment of a `SvcInit` execution: the outcome of each fallible
OS / resolution-engine call, the number of service arguments, the digit
passed as `lpszArgv[1][0] - '0'`, the value `read_config` would store in
`validate_dnssec`, and the successive return values of
`WaitForSingleObject` in the run loop (one entry per loop pass). -/
structure SvcEnv where
  createEventOk : Bool
  contextCreateOk : Bool
  readConfigOk : Bool
  readConfigValidate : Nat
  serverListenOk : Bool
  getEventloopOk : Bool
  dwArgc : Nat
  logArgDigit : Nat
  polls : List Nat
deriving Repr

/-- The `for(;;)` run loop of `SvcInit` (service.c lines 605-627),
driven by the successive `WaitForSingleObject(ghSvcStopEvent, 0)`
results.  Translated exactly as written: the `WAIT_OBJECT_0` case
leaves `more` untouched so the loop calls `run_once` and continues;
`WAIT_FAILED` clears `more` after `report_winerr`; every other result
(in particular `WAIT_TIMEOUT`) falls to `default`, logging
"Stop object signalled" and clearing `more`.  Returns the trace of the
loop body and whether the loop exited (`false` when the supplied poll
results run out with the loop still going). -/
def svcRunLoop : List Nat → List Ev × Bool
  | [] => ([], false)
  | w :: rest =>
    if w = WAIT_OBJECT_0 then
      (Ev.runOnce :: (svcRunLoop rest).1, (svcRunLoop rest).2)
    else if w = WAIT_FAILED then
      ([Ev.reportWinErr "WaitForSingleObject"], true)
    else
      ([Ev.stubbyDebug "Stop object signalled"], true)

/-- The `tidy_and_exit:` label of `SvcInit` (service.c lines 630-634):
destroy the getdns context, release the configuration, close the
stop-event handle. -/
def tidySeq : List Ev :=
  [Ev.destroyContext, Ev.deleteConfig, Ev.closeStopHandle]

/-- Function `SvcInit` (service.c lines 552-635) as the trace of its observable
effects, given the call outcomes in `env`.  Failure paths follow the
source exactly: a `CreateEvent` failure only reports `STOPPED`; a
context-creation failure reports `STOPPED` and closes the stop handle
inline and returns; the three later checkpoint failures report
`STOPPED` and `goto tidy_and_exit`; after `RUNNING`, the loop events
are followed by the `STOPPED` report and the fall-through into
`tidy_and_exit` when the loop exits. -/
def SvcInit (env : SvcEnv) : List Ev :=
  if env.createEventOk = false then
    [Ev.report SERVICE_STOPPED 1 0]
  else
    Ev.report SERVICE_START_PENDING 0 1000 ::
    if env.contextCreateOk = false then
      [Ev.stubbyError "Create context failed",
       Ev.report SERVICE_STOPPED 1 0,
       Ev.closeStopHandle]
    else
      (if env.dwArgc > 1 then [Ev.setLogging env.logArgDigit] else []) ++
      Ev.initConfig ::
      Ev.report SERVICE_START_PENDING 0 1010 ::
      Ev.readConfig ::
      if env.readConfigOk = false then
        Ev.report SERVICE_STOPPED 1 0 :: tidySeq
      else
        Ev.report SERVICE_START_PENDING 0 1020 ::
        Ev.serverListen dnssec_validation ::
        if env.serverListenOk = false then
          Ev.report SERVICE_STOPPED 1 0 :: tidySeq
        else
          Ev.report SERVICE_START_PENDING 0 1030 ::
          Ev.getEventloop ::
          if env.getEventloopOk = false then
            Ev.reportGetdnsErr "Get event loop" ::
            Ev.report SERVICE_STOPPED 1 0 :: tidySeq
          else
            Ev.report SERVICE_RUNNING 0 0 ::
            ((svcRunLoop env.polls).1 ++
             if (svcRunLoop env.polls).2 then
               Ev.report SERVICE_STOPPED 0 0 :: tidySeq
             else [])

/-- Function `SvcCtrlHandler` (service.c lines 659-674): on
`SERVICE_CONTROL_STOP` it reports `STOP_PENDING` and sets the stop
event; `SERVICE_CONTROL_INTERROGATE` and every other control code do
nothing. -/
def SvcCtrlHandler (dwCtrl : Nat) : List Ev :=
  if dwCtrl = SERVICE_CONTROL_STOP then
    [Ev.report SERVICE_STOP_PENDING 0 0, Ev.setStopEvent]
  else if dwCtrl = SERVICE_CONTROL_INTERROGATE then
    []
  else
    []

/-! ### Status reporting (`ReportSvcStatus`, service.c lines 637-657) -/

/-- The fields of the `SERVICE_STATUS` record that `ReportSvcStatus`
fills in before calling `SetServiceStatus`. -/
structure SvcStatusRec where
  currentState : Nat
  win32ExitCode : Nat
  waitHint : Nat
  controlsAccepted : Nat
  checkPoint : Nat
deriving DecidableEq, Repr

/-- The condition of service.c lines 651-652: the reported state is
`SERVICE_RUNNING` or `SERVICE_STOPPED`. -/
def isTerminalReport (state : Nat) : Bool :=
  state == SERVICE_RUNNING || state == SERVICE_STOPPED

/-- Function `ReportSvcStatus` (service.c lines 637-657).  The `static DWORD
dwCheckPoint = 1` is threaded explicitly: the function takes the
current counter and returns the reported record together with the new
counter.  `dwCheckPoint++` on a `DWORD` wraps modulo `2^32`. -/
def ReportSvcStatus (dwCurrentState dwWin32ExitCode dwWaitHint : Nat)
    (dwCheckPoint : Nat) : SvcStatusRec × Nat :=
  let ca := if dwCurrentState = SERVICE_START_PENDING then 0 else SERVICE_ACCEPT_STOP
  if isTerminalReport dwCurrentState then
    (⟨dwCurrentState, dwWin32ExitCode, dwWaitHint, ca, 0⟩, dwCheckPoint)
  else
    (⟨dwCurrentState, dwWin32ExitCode, dwWaitHint, ca, dwCheckPoint⟩,
     (dwCheckPoint + 1) % 4294967296)

/-- The records produced by a sequence of `ReportSvcStatus` calls
(state, exit code, wait hint), threading the static checkpoint
counter. -/
def reportSeq : List (Nat × Nat × Nat) → Nat → List SvcStatusRec
  | [], _ => []
  | (s, c, h) :: rest, cp =>
    (ReportSvcStatus s c h cp).1 :: reportSeq rest (ReportSvcStatus s c h cp).2

/-! ### Install / remove (`SvcInstall`, `SvcRemove`, service.c lines 232-436) -/

/-- Persistent machine state touched by install/remove: whether the
event-log registry key for the service name exists, and whether the
service registration exists. -/
structure World where
  eventLogPresent : Bool
  servicePresent : Bool
deriving DecidableEq, Repr

/-- Steps of the install / remove command traces.  `winerrExit op`
marks the point where `winerr`/`winlasterr` prints to stderr and calls
`exit(EXIT_FAILURE)`, ending the process. -/
inductive StepEv where
  | getModuleFileName
  | createEventLogKey
  | setRegValue (name : String)
  | openSCM
  | createService
  | changeServiceConfig
  | printInstalled
  | openService
  | deleteService
  | openEventLogParentKey
  | deleteEventLogKey
  | printRemoved
  | winerrExit (op : String)
deriving DecidableEq, Repr

/-- Outcomes of the registry calls inside `createRegistryEntries`
(service.c lines 232-314). -/
structure RegEnv where
  createKeyOk : Bool
  setEventMessageFileOk : Bool
  setCategoryMessageFileOk : Bool
  setTypesSupportedOk : Bool
  setCategoryCountOk : Bool
deriving DecidableEq, Repr

/-- Function `createRegistryEntries` (service.c lines 232-314): create (or open)
the event-log key for the service name, then set four values; each
failure calls `winerr`, which exits the process.  Returns the updated
world, the trace, and whether the function completed.  The key exists
as soon as `RegCreateKeyEx` succeeds, even if a later `RegSetValueEx`
fails. -/
def createRegistryEntries (e : RegEnv) (w : World) : World × List StepEv × Bool :=
  if e.createKeyOk = false then
    (w, [StepEv.winerrExit "Create registry key"], false)
  else
    let w2 : World := { w with eventLogPresent := true }
    if e.setEventMessageFileOk = false then
      (w2, [StepEv.createEventLogKey,
            StepEv.winerrExit "Set EventMessageFile"], false)
    else if e.setCategoryMessageFileOk = false then
      (w2, [StepEv.createEventLogKey, StepEv.setRegValue "EventMessageFile",
            StepEv.winerrExit "Set CategoryMessageFile"], false)
    else if e.setTypesSupportedOk = false then
      (w2, [StepEv.createEventLogKey, StepEv.setRegValue "EventMessageFile",
            StepEv.setRegValue "CategoryMessageFile",
            StepEv.winerrExit "Set TypesSupported"], false)
    else if e.setCategoryCountOk = false then
      (w2, [StepEv.createEventLogKey, StepEv.setRegValue "EventMessageFile",
            StepEv.setRegValue "CategoryMessageFile",
            StepEv.setRegValue "TypesSupported",
            StepEv.winerrExit "Set TypesSupported"], false)
    else
      (w2, [StepEv.createEventLogKey, StepEv.setRegValue "EventMessageFile",
            StepEv.setRegValue "CategoryMessageFile",
            StepEv.setRegValue "TypesSupported",
            StepEv.setRegValue "CategoryCount"], true)

/-- Function `deleteRegistryEntries` (service.c lines 316-344): open the parent
`EventLog\Application` key, then delete the service-name subkey; each
failure calls `winerr` (process exit). -/
def deleteRegistryEntries (openParentOk deleteKeyOk : Bool) (w : World) :
    World × List StepEv × Bool :=
  if openParentOk = false then
    (w, [StepEv.winerrExit "Create registry key"], false)
  else if deleteKeyOk = false then
    (w, [StepEv.openEventLogParentKey,
         StepEv.winerrExit "Delete registry key"], false)
  else
    ({ w with eventLogPresent := false },
     [StepEv.openEventLogParentKey, StepEv.deleteEventLogKey], true)

/-- Outcomes of the OS calls made by `SvcInstall`. -/
structure InstallEnv where
  getModuleFileNameOk : Bool
  reg : RegEnv
  openSCMOk : Bool
  createServiceOk : Bool
deriving DecidableEq, Repr

/-- Function `SvcInstall` (service.c lines 346-398): resolve the module path,
create the event-log registry entries, open the service manager, create
the service, set its description, print success.  Every OS failure goes
through `winlasterr` (process exit).  Returns final world, trace, and
whether the command completed. -/
def SvcInstall (e : InstallEnv) (w : World) : World × List StepEv × Bool :=
  if e.getModuleFileNameOk = false then
    (w, [StepEv.winerrExit "GetModuleFileName"], false)
  else
    let r := createRegistryEntries e.reg w
    if r.2.2 = false then
      (r.1, StepEv.getModuleFileName :: r.2.1, false)
    else if e.openSCMOk = false then
      (r.1, StepEv.getModuleFileName :: r.2.1 ++
            [StepEv.winerrExit "Open service manager"], false)
    else if e.createServiceOk = false then
      (r.1, StepEv.getModuleFileName :: r.2.1 ++
            [StepEv.openSCM, StepEv.winerrExit "Create service"], false)
    else
      ({ r.1 with servicePresent := true },
       StepEv.getModuleFileName :: r.2.1 ++
       [StepEv.openSCM, StepEv.createService, StepEv.changeServiceConfig,
        StepEv.printInstalled], true)

/-- Outcomes of the OS calls made by `SvcRemove`. -/
structure RemoveEnv where
  openSCMOk : Bool
  openServiceOk : Bool
  deleteServiceOk : Bool
  regOpenParentOk : Bool
  regDeleteKeyOk : Bool
deriving DecidableEq, Repr

/-- Function `SvcRemove` (service.c lines 400-436): open the service manager,
open the service, delete the service registration, then delete the
event-log registry entries, then print success.  Every OS failure goes
through `winlasterr` (process exit). -/
def SvcRemove (e : RemoveEnv) (w : World) : World × List StepEv × Bool :=
  if e.openSCMOk = false then
    (w, [StepEv.winerrExit "Open service manager"], false)
  else if e.openServiceOk = false then
    (w, [StepEv.winerrExit "Open service"], false)
  else if e.deleteServiceOk = false then
    (w, [StepEv.openService, StepEv.winerrExit "Delete service"], false)
  else
    let w2 : World := { w with servicePresent := false }
    let r := deleteRegistryEntries e.regOpenParentOk e.regDeleteKeyOk w2
    if r.2.2 = false then
      (r.1, StepEv.openService :: StepEv.deleteService :: r.2.1, false)
    else
      (r.1, StepEv.openService :: StepEv.deleteService :: r.2.1 ++
            [StepEv.printRemoved], true)

/-! ### Start / stop / service actions and the command dispatcher -/

/-- Outcomes of the OS calls made by `SvcStart` (service.c 438-486). -/
structure StartEnv where
  openSCMOk : Bool
  openServiceOk : Bool
  startServiceOk : Bool
deriving DecidableEq, Repr

/-- Function `SvcStart` (service.c lines 438-486): open manager and service,
request a start with two arguments; each failure exits via
`winlasterr`.  Returns whether the command completed. -/
def SvcStart (e : StartEnv) (loglevel : Nat) : Bool :=
  if e.openSCMOk = false then false
  else if e.openServiceOk = false then false
  else if e.startServiceOk = false then false
  else true

/-- Outcomes of the OS calls made by `SvcStop` (service.c 488-529). -/
structure StopEnv where
  openSCMOk : Bool
  openServiceOk : Bool
  controlServiceOk : Bool
deriving DecidableEq, Repr

/-- Function `SvcStop` (service.c lines 488-529): open manager and service,
issue the stop control; each failure exits via `winlasterr`. -/
def SvcStop (e : StopEnv) : Bool :=
  if e.openSCMOk = false then false
  else if e.openServiceOk = false then false
  else if e.controlServiceOk = false then false
  else true

/-- Function `SvcService` (service.c lines 217-230): run the service control
dispatcher.  A `StartServiceCtrlDispatcher` failure is only reported
via `report_winerr` (no process exit), so the function always returns
to the dispatcher, which then exits with success. -/
def SvcService (dispatcherOk : Bool) : Bool :=
  true

/-- ASCII lower-casing of a character code, for the `lstrcmpi` model. -/
def lowerCode (n : Nat) : Nat :=
  if 65 ≤ n ∧ n ≤ 90 then n + 32 else n

/-- Model of `lstrcmpi` equality: case-insensitive string comparison
(ASCII case folding of the character codes). -/
def lstrcmpiEq (a b : String) : Bool :=
  a.data.map (fun c => lowerCode c.toNat) == b.data.map (fun c => lowerCode c.toNat)

/-- Exit status of the command-line process. -/
inductive ExitStatus where
  | success
  | failure
deriving DecidableEq, Repr

/-- Result of a `windows_service_command` invocation: the exit status
and the lines written to standard error. -/
structure CmdOutcome where
  status : ExitStatus
  stderrLines : List String
deriving DecidableEq, Repr

/-- Outcomes of every OS call any dispatched action might make, plus
the persistent world the registry actions operate on. -/
structure CmdEnv where
  world : World
  installEnv : InstallEnv
  removeEnv : RemoveEnv
  startEnv : StartEnv
  stopEnv : StopEnv
  dispatcherOk : Bool
deriving DecidableEq, Repr

/-- The stderr lines produced by the `winerrExit` steps of a trace. -/
def stderrOfTrace (tr : List StepEv) : List String :=
  tr.filterMap (fun s =>
    match s with
    | StepEv.winerrExit op => some ("Error: " ++ op)
    | _ => none)

/-- Function `windows_service_command` (service.c lines 90-109): dispatch on the
command token, compared case-insensitively against the five known
commands in source order; a recognized command runs its action (whose
OS failures exit the process with failure via `winerr`) and then the
dispatcher exits with success; an unknown token prints a diagnostic
naming it to stderr and exits with failure. -/
def windows_service_command (env : CmdEnv) (arg : String) (loglevel : Nat) :
    CmdOutcome :=
  if lstrcmpiEq arg "install" then
    let r := SvcInstall env.installEnv env.world
    if r.2.2 then ⟨ExitStatus.success, []⟩
    else ⟨ExitStatus.failure, stderrOfTrace r.2.1⟩
  else if lstrcmpiEq arg "remove" then
    let r := SvcRemove env.removeEnv env.world
    if r.2.2 then ⟨ExitStatus.success, []⟩
    else ⟨ExitStatus.failure, stderrOfTrace r.2.1⟩
  else if lstrcmpiEq arg "service" then
    if SvcService env.dispatcherOk then ⟨ExitStatus.success, []⟩
    else ⟨ExitStatus.failure, []⟩
  else if lstrcmpiEq arg "start" then
    if SvcStart env.startEnv loglevel then ⟨ExitStatus.success, []⟩
    else ⟨ExitStatus.failure, ["Error: start"]⟩
  else if lstrcmpiEq arg "stop" then
    if SvcStop env.stopEnv then ⟨ExitStatus.success, []⟩
    else ⟨ExitStatus.failure, ["Error: stop"]⟩
  else
    ⟨ExitStatus.failure, ["Unknown Windows option " ++ arg]⟩

/-- The command token is one of the five recognized commands
(case-insensitively). -/
def recognizedCmd (arg : String) : Bool :=
  lstrcmpiEq arg "install" || lstrcmpiEq arg "remove" ||
  lstrcmpiEq arg "service" || lstrcmpiEq arg "start" ||
  lstrcmpiEq arg "stop"

/-- The dispatched action completes without an OS-call failure. -/
def actionCompletes (env : CmdEnv) (arg : String) (loglevel : Nat) : Bool :=
  if lstrcmpiEq arg "install" then (SvcInstall env.installEnv env.world).2.2
  else if lstrcmpiEq arg "remove" then (SvcRemove env.removeEnv env.world).2.2
  else if lstrcmpiEq arg "service" then SvcService env.dispatcherOk
  else if lstrcmpiEq arg "start" then SvcStart env.startEnv loglevel
  else if lstrcmpiEq arg "stop" then SvcStop env.stopEnv
  else false

/-! ### Concrete inputs used by witnesses and counterexamples -/

/-- A run where every startup call succeeds and the first poll of the
run loop returns `WAIT_TIMEOUT` (stop event unsignaled). -/
def envRunOk : SvcEnv :=
  { createEventOk := true, contextCreateOk := true, readConfigOk := true,
    readConfigValidate := 1, serverListenOk := true, getEventloopOk := true,
    dwArgc := 1, logArgDigit := 0, polls := [WAIT_TIMEOUT] }

/-- A run where `getdns_context_create` fails and everything else would
succeed. -/
def envCtxFail : SvcEnv :=
  { createEventOk := true, contextCreateOk := false, readConfigOk := true,
    readConfigValidate := 0, serverListenOk := true, getEventloopOk := true,
    dwArgc := 1, logArgDigit := 0, polls := [] }

/-- A run where `read_config` fails and everything else would
succeed. -/
def envCfgFail : SvcEnv :=
  { createEventOk := true, contextCreateOk := true, readConfigOk := false,
    readConfigValidate := 0, serverListenOk := true, getEventloopOk := true,
    dwArgc := 1, logArgDigit := 0, polls := [] }

/-- Registry environment with every call succeeding. -/
def regAllOk : RegEnv :=
  { createKeyOk := true, setEventMessageFileOk := true,
    setCategoryMessageFileOk := true, setTypesSupportedOk := true,
    setCategoryCountOk := true }

/-- Install environment where only `CreateService` fails (for example
because the service is already registered). -/
def installCreateServiceFails : InstallEnv :=
  { getModuleFileNameOk := true, reg := regAllOk,
    openSCMOk := true, createServiceOk := false }

/-- Machine with neither the event-log entry nor the service
registration present. -/
def emptyWorld : World :=
  { eventLogPresent := false, servicePresent := false }

/-- Dispatcher environment where every OS call succeeds. -/
def cmdEnvAllOk : CmdEnv :=
  { world := emptyWorld,
    installEnv := { getModuleFileNameOk := true, reg := regAllOk,
                    openSCMOk := true, createServiceOk := true },
    removeEnv := { openSCMOk := true, openServiceOk := true,
                   deleteServiceOk := true, regOpenParentOk := true,
                   regDeleteKeyOk := true },
    startEnv := { openSCMOk := true, openServiceOk := true, startServiceOk := true },
    stopEnv := { openSCMOk := true, openServiceOk := true, controlServiceOk := true },
    dispatcherOk := true }

/-- The `ReportSvcStatus` calls of a complete successful service
invocation that is then stopped: `SvcMain` (wait hint 3000), the four
startup checkpoints, `RUNNING`, the handler's `STOP_PENDING`, and the
final `STOPPED`. -/
def svcCallSeq : List (Nat × Nat × Nat) :=
  [(SERVICE_START_PENDING, 0, 3000), (SERVICE_START_PENDING, 0, 1000),
   (SERVICE_START_PENDING, 0, 1010), (SERVICE_START_PENDING, 0, 1020),
   (SERVICE_START_PENDING, 0, 1030), (SERVICE_RUNNING, 0, 0),
   (SERVICE_STOP_PENDING, 0, 0), (SERVICE_STOPPED, 0, 0)]

/-! ### Helper lemmas -/

/-- The run loop only emits `runOnce`, `reportWinErr` and `stubbyDebug`
events; in particular it never emits a `serverListen` event. -/
theorem svcRunLoop_no_serverListen (polls : List Nat) (flag : Nat) :
    Ev.serverListen flag ∉ (svcRunLoop polls).1 := by
  induction polls with
  | nil => simp [svcRunLoop]
  | cons w rest ih =>
    simp only [svcRunLoop]
    split
    · simp [ih]
    · split <;> simp

/-- Checkpoint discipline of threaded `ReportSvcStatus` calls: as long
as the counter starts at least at 1 and cannot wrap (the number of
calls keeps it below `2^32`), a reported record carries checkpoint 0
exactly when its state is terminal (`RUNNING` or `STOPPED`), and the
checkpoints of the non-terminal reports are exactly the consecutive
values starting at the initial counter. -/
theorem reportSeq_checkpoint_aux (calls : List (Nat × Nat × Nat)) :
    ∀ cp, 1 ≤ cp → cp + calls.length ≤ 4294967296 →
    (∀ st ∈ reportSeq calls cp,
        (st.checkPoint = 0 ↔ isTerminalReport st.currentState = true)) ∧
    ((reportSeq calls cp).filter
        (fun st => !isTerminalReport st.currentState)).map
          SvcStatusRec.checkPoint
      = List.range' cp (calls.filter (fun c => !isTerminalReport c.1)).length := by
  induction calls with
  | nil => intro cp h1 h2; simp [reportSeq]
  | cons head rest ih =>
    obtain ⟨s, c, h⟩ := head
    intro cp h1 h2
    by_cases ht : isTerminalReport s
    · have hrec : ReportSvcStatus s c h cp =
          (⟨s, c, h, if s = SERVICE_START_PENDING then 0 else SERVICE_ACCEPT_STOP,
            0⟩, cp) := by
        simp [ReportSvcStatus, ht]
      have hrest := ih cp h1 (by simp at h2; omega)
      constructor
      · intro st hst
        simp only [reportSeq, hrec] at hst
        rcases List.mem_cons.mp hst with heq | hmem
        · subst heq; simpa using ht
        · exact hrest.1 st hmem
      · simp only [reportSeq, hrec, List.filter_cons, List.filter]
        simp [ht, hrest.2]
    · have hrec : ReportSvcStatus s c h cp =
          (⟨s, c, h, if s = SERVICE_START_PENDING then 0 else SERVICE_ACCEPT_STOP,
            cp⟩, (cp + 1) % 4294967296) := by
        simp [ReportSvcStatus, ht]
      by_cases hwrap : cp + 1 < 4294967296
      · have hmod : (cp + 1) % 4294967296 = cp + 1 := Nat.mod_eq_of_lt hwrap
        have hrest := ih (cp + 1) (by omega) (by simp at h2; omega)
        constructor
        · intro st hst
          simp only [reportSeq, hrec, hmod] at hst
          rcases List.mem_cons.mp hst with heq | hmem
          · subst heq; simp [ht]; omega
          · exact hrest.1 st hmem
        · simp only [reportSeq, hrec, hmod]
          simp [ht, hrest.2, List.range'_succ]
      · have hlen : rest.length = 0 := by simp at h2; omega
        have hnil : rest = [] := List.length_eq_zero.mp hlen
        subst hnil
        constructor
        · intro st hst
          simp only [reportSeq, hrec] at hst
          rcases List.mem_cons.mp hst with heq | hmem
          · subst heq; simp [ht]; omega
          · simp [reportSeq] at hmem
        · simp only [reportSeq, hrec]
          simp [ht, List.range'_succ]

/-- In every install trace that creates the service, the event-log key
creation appears, and appears strictly before the service creation. -/
theorem SvcInstall_eventlog_before_service (ie : InstallEnv) (w : World) :
    StepEv.createService ∈ (SvcInstall ie w).2.1 →
      StepEv.createEventLogKey ∈ (SvcInstall ie w).2.1 ∧
      List.indexOf StepEv.createEventLogKey (SvcInstall ie w).2.1 <
        List.indexOf StepEv.createService (SvcInstall ie w).2.1 := by
  obtain ⟨gm, ⟨ck, s1, s2, s3, s4⟩, os, cs⟩ := ie
  obtain ⟨el, sp⟩ := w
  cases el <;> cases sp <;>
    cases gm <;> cases ck <;> cases s1 <;> cases s2 <;> cases s3 <;>
      cases s4 <;> cases os <;> cases cs <;> decide

/-- In every remove trace that deletes the event-log key, the service
deletion appears, and appears strictly before it. -/
theorem SvcRemove_service_before_eventlog (re : RemoveEnv) (w : World) :
    StepEv.deleteEventLogKey ∈ (SvcRemove re w).2.1 →
      StepEv.deleteService ∈ (SvcRemove re w).2.1 ∧
      List.indexOf StepEv.deleteService (SvcRemove re w).2.1 <
        List.indexOf StepEv.deleteEventLogKey (SvcRemove re w).2.1 := by
  obtain ⟨ro, rs, rd, rp, rk⟩ := re
  obtain ⟨el, sp⟩ := w
  cases el <;> cases sp <;>
    cases ro <;> cases rs <;> cases rd <;> cases rp <;> cases rk <;> decide

/-- If install gets past creating the event-log key and then fails at
the service manager or at service creation, the final state has the
event-log entry present while the service registration is unchanged
(absent if it was absent), and the command did not complete. -/
theorem SvcInstall_orphan_aux (ie : InstallEnv) (w : World)
    (h1 : ie.getModuleFileNameOk = true) (h2 : ie.reg.createKeyOk = true)
    (h3 : ie.openSCMOk = false ∨ ie.createServiceOk = false) :
    (SvcInstall ie w).1.eventLogPresent = true ∧
    (SvcInstall ie w).1.servicePresent = w.servicePresent ∧
    (SvcInstall ie w).2.2 = false := by
  obtain ⟨gm, ⟨ck, s1, s2, s3, s4⟩, os, cs⟩ := ie
  simp only at h1 h2
  subst h1; subst h2
  cases s1 <;> cases s2 <;> cases s3 <;> cases s4 <;> cases os <;> cases cs <;>
    simp_all [SvcInstall, createRegistryEntries]

/-! ### Claim theorems -/

/-- Claim C1: the spec says the run loop performs one bounded engine
iteration and continues when the zero-timeout poll reports the stop
event unsignaled, and exits the loop when the poll fails or reports the
event signaled.  The code has the two poll outcomes swapped: with the
zero timeout, an unsignaled event makes `WaitForSingleObject` return
`WAIT_TIMEOUT`, which falls into the `default` branch that logs "Stop
object signalled" and exits the loop without any engine iteration,
while a signaled event returns `WAIT_OBJECT_0`, whose case leaves
`more` set so the loop calls `run_once` and keeps going.  This theorem
evaluates the embedded loop at both poll outcomes, exhibiting the
inversion. -/
theorem svcRunLoop_poll_handling_inverted :
    svcRunLoop [WAIT_TIMEOUT] = ([Ev.stubbyDebug "Stop object signalled"], true) ∧
    svcRunLoop [WAIT_OBJECT_0] = ([Ev.runOnce], false) ∧
    svcRunLoop [WAIT_OBJECT_0, WAIT_OBJECT_0, WAIT_OBJECT_0] =
      ([Ev.runOnce, Ev.runOnce, Ev.runOnce], false) := by
  refine ⟨rfl, rfl, rfl⟩

/-- Claim C4: for every control code, the control handler performs no
teardown action (it never destroys the context, releases the
configuration, or closes the stop-event handle); on `SERVICE_CONTROL_STOP`
it exactly reports `STOP_PENDING` and sets the stop event, and on every
other control code (including `SERVICE_CONTROL_INTERROGATE`) it does
nothing at all. -/
theorem SvcCtrlHandler_no_teardown (dwCtrl : Nat) :
    Ev.destroyContext ∉ SvcCtrlHandler dwCtrl ∧
    Ev.deleteConfig ∉ SvcCtrlHandler dwCtrl ∧
    Ev.closeStopHandle ∉ SvcCtrlHandler dwCtrl ∧
    (dwCtrl = SERVICE_CONTROL_STOP →
      SvcCtrlHandler dwCtrl =
        [Ev.report SERVICE_STOP_PENDING 0 0, Ev.setStopEvent]) ∧
    (dwCtrl ≠ SERVICE_CONTROL_STOP → SvcCtrlHandler dwCtrl = []) := by
  by_cases h : dwCtrl = SERVICE_CONTROL_STOP <;>
    by_cases h2 : dwCtrl = SERVICE_CONTROL_INTERROGATE <;>
      simp [SvcCtrlHandler, h, h2]

/-- Witness for C4 at the concrete control codes 1 (stop) and
4 (interrogate). -/
theorem SvcCtrlHandler_no_teardown_witness :
    SvcCtrlHandler 1 = [Ev.report SERVICE_STOP_PENDING 0 0, Ev.setStopEvent] ∧
    SvcCtrlHandler 4 = [] :=
  ⟨(SvcCtrlHandler_no_teardown 1).2.2.2.1 rfl,
   (SvcCtrlHandler_no_teardown 4).2.2.2.2 (by decide)⟩

/-- Claim C10: when `RegisterEventSource` fails, `report_verror`
returns immediately: no event is emitted, nothing is deregistered, no
error is propagated — the effect trace is empty for every severity. -/
theorem report_verror_drops_message_on_register_failure (level : Nat) :
    report_verror false level = [] := rfl

/-- Claim C8: the logging bridge emits exactly one event per callback,
whose class maps emergency/alert/critical/error to the error type,
warning/notice to the warning type, and info together with every other
severity (including debug, level 7) to the information type; and the
eight severities receive pairwise distinct numeric event
identifiers. -/
theorem report_verror_severity_mapping (level : Nat) :
    report_verror true level =
      [LogEffect.reportEvent (report_event_class level).1
        (report_event_class level).2,
       LogEffect.deregisterSource] ∧
    ((level = GETDNS_LOG_EMERG ∨ level = GETDNS_LOG_ALERT ∨
      level = GETDNS_LOG_CRIT ∨ level = GETDNS_LOG_ERR) →
      (report_event_class level).1 = EVENTLOG_ERROR_TYPE) ∧
    ((level = GETDNS_LOG_WARNING ∨ level = GETDNS_LOG_NOTICE) →
      (report_event_class level).1 = EVENTLOG_WARNING_TYPE) ∧
    ((level = GETDNS_LOG_INFO ∨ GETDNS_LOG_DEBUG ≤ level) →
      (report_event_class level).1 = EVENTLOG_INFORMATION_TYPE) ∧
    ((List.range 8).map (fun l => (report_event_class l).2)).Nodup := by
  refine ⟨rfl, ?_, ?_, ?_, by decide⟩
  · rintro (rfl | rfl | rfl | rfl) <;> rfl
  · rintro (rfl | rfl) <;> rfl
  · rintro (rfl | hge)
    · rfl
    · have h0 : level ≠ GETDNS_LOG_EMERG := by
        simp [GETDNS_LOG_EMERG, GETDNS_LOG_DEBUG] at hge ⊢; omega
      have h1 : level ≠ GETDNS_LOG_ALERT := by
        simp [GETDNS_LOG_ALERT, GETDNS_LOG_DEBUG] at hge ⊢; omega
      have h2 : level ≠ GETDNS_LOG_CRIT := by
        simp [GETDNS_LOG_CRIT, GETDNS_LOG_DEBUG] at hge ⊢; omega
      have h3 : level ≠ GETDNS_LOG_ERR := by
        simp [GETDNS_LOG_ERR, GETDNS_LOG_DEBUG] at hge ⊢; omega
      have h4 : level ≠ GETDNS_LOG_WARNING := by
        simp [GETDNS_LOG_WARNING, GETDNS_LOG_DEBUG] at hge ⊢; omega
      have h5 : level ≠ GETDNS_LOG_NOTICE := by
        simp [GETDNS_LOG_NOTICE, GETDNS_LOG_DEBUG] at hge ⊢; omega
      have h6 : level ≠ GETDNS_LOG_INFO := by
        simp [GETDNS_LOG_INFO, GETDNS_LOG_DEBUG] at hge ⊢; omega
      simp [report_event_class, h0, h1, h2, h3, h4, h5, h6]

/-- Witness for C8 at concrete severities: error (3) maps to the error
class, notice (5) to the warning class, debug (7) to the information
class. -/
theorem report_verror_severity_mapping_witness :
    (report_event_class 3).1 = EVENTLOG_ERROR_TYPE ∧
    (report_event_class 5).1 = EVENTLOG_WARNING_TYPE ∧
    (report_event_class 7).1 = EVENTLOG_INFORMATION_TYPE :=
  ⟨(report_verror_severity_mapping 3).2.1 (Or.inr (Or.inr (Or.inr rfl))),
   (report_verror_severity_mapping 5).2.2.1 (Or.inr rfl),
   (report_verror_severity_mapping 7).2.2.2.1 (Or.inr (by decide))⟩

/-- Counterexample to claim C2 as stated: in the run where startup
succeeds and the loop exits on its first pass (`envRunOk`), the
`STOPPED` status report (service.c line 628) occurs strictly before
each of the three teardown steps of `tidy_and_exit` (lines 631-634),
not after them; the full trace is listed. -/
theorem SvcInit_reports_stopped_before_teardown :
    SvcInit envRunOk =
      [Ev.report SERVICE_START_PENDING 0 1000, Ev.initConfig,
       Ev.report SERVICE_START_PENDING 0 1010, Ev.readConfig,
       Ev.report SERVICE_START_PENDING 0 1020, Ev.serverListen 0,
       Ev.report SERVICE_START_PENDING 0 1030, Ev.getEventloop,
       Ev.report SERVICE_RUNNING 0 0, Ev.stubbyDebug "Stop object signalled",
       Ev.report SERVICE_STOPPED 0 0, Ev.destroyContext, Ev.deleteConfig,
       Ev.closeStopHandle] ∧
    Ev.destroyContext ∈ SvcInit envRunOk ∧
    Ev.deleteConfig ∈ SvcInit envRunOk ∧
    Ev.closeStopHandle ∈ SvcInit envRunOk ∧
    List.indexOf (Ev.report SERVICE_STOPPED 0 0) (SvcInit envRunOk) <
      List.indexOf Ev.destroyContext (SvcInit envRunOk) ∧
    List.indexOf (Ev.report SERVICE_STOPPED 0 0) (SvcInit envRunOk) <
      List.indexOf Ev.deleteConfig (SvcInit envRunOk) ∧
    List.indexOf (Ev.report SERVICE_STOPPED 0 0) (SvcInit envRunOk) <
      List.indexOf Ev.closeStopHandle (SvcInit envRunOk) := by
  decide

/-- Claim C2 (amended): when the run loop exits after `RUNNING` was
reported, the service first reports `STOPPED` (with exit code 0) and
then performs the teardown steps — destroy the resolution context,
release the configuration state, close the stop-event handle — as the
final actions of the service thread. -/
theorem SvcInit_teardown_follows_stopped_report (env : SvcEnv)
    (h1 : env.createEventOk = true) (h2 : env.contextCreateOk = true)
    (h3 : env.readConfigOk = true) (h4 : env.serverListenOk = true)
    (h5 : env.getEventloopOk = true) (h6 : (svcRunLoop env.polls).2 = true) :
    List.IsSuffix (Ev.report SERVICE_STOPPED 0 0 :: tidySeq) (SvcInit env) := by
  refine ⟨Ev.report SERVICE_START_PENDING 0 1000 ::
    ((if env.dwArgc > 1 then [Ev.setLogging env.logArgDigit] else []) ++
     Ev.initConfig :: Ev.report SERVICE_START_PENDING 0 1010 :: Ev.readConfig ::
     Ev.report SERVICE_START_PENDING 0 1020 ::
     Ev.serverListen dnssec_validation ::
     Ev.report SERVICE_START_PENDING 0 1030 :: Ev.getEventloop ::
     Ev.report SERVICE_RUNNING 0 0 :: (svcRunLoop env.polls).1), ?_⟩
  simp [SvcInit, h1, h2, h3, h4, h5, h6]

/-- Witness for the amended C2 at the concrete run `envRunOk`. -/
theorem SvcInit_teardown_follows_stopped_report_witness :
    List.IsSuffix (Ev.report SERVICE_STOPPED 0 0 :: tidySeq) (SvcInit envRunOk) :=
  SvcInit_teardown_follows_stopped_report envRunOk rfl rfl rfl rfl rfl (by decide)

/-- Claim C5: the dnssec flag passed to `server_listen` is the
process-wide global `dnssec_validation`, which is initialized to 0 and
never assigned, so every `serverListen` call in any `SvcInit` trace
carries flag 0; and the `validate_dnssec` value produced by
`read_config` is never used afterwards — the trace is independent of
it. -/
theorem SvcInit_serverListen_flag_zero (env : SvcEnv) (flag v : Nat) :
    dnssec_validation = 0 ∧
    (Ev.serverListen flag ∈ SvcInit env → flag = dnssec_validation) ∧
    SvcInit { env with readConfigValidate := v } = SvcInit env := by
  refine ⟨rfl, ?_, rfl⟩
  intro hmem
  simp only [dnssec_validation]
  obtain ⟨ce, cc, rc, rv, sl, el, ac, ld, polls⟩ := env
  cases ce <;> cases cc <;> cases rc <;> cases sl <;> cases el <;>
    by_cases hac : ac > 1 <;>
      simp [SvcInit, tidySeq, dnssec_validation, hac,
            svcRunLoop_no_serverListen] at hmem <;>
      exact hmem

/-- Witness for C5 at the concrete run `envRunOk` with flag 0 and an
arbitrary `validate_dnssec` value 42. -/
theorem SvcInit_serverListen_flag_zero_witness :
    (0 : Nat) = dnssec_validation ∧
    SvcInit { envRunOk with readConfigValidate := 42 } = SvcInit envRunOk :=
  ⟨(SvcInit_serverListen_flag_zero envRunOk 0 42).2.1 (by decide),
   (SvcInit_serverListen_flag_zero envRunOk 0 42).2.2⟩

/-- Counterexample to claim C3 as stated: when `getdns_context_create`
fails (the first checkpoint after stop-event creation), control does
not fall through to the shared teardown path — the code reports
`STOPPED` with exit code 1, closes the stop handle inline and returns
(service.c lines 573-579); neither `getdns_context_destroy` nor
`delete_config` of the `tidy_and_exit` path is executed. -/
theorem SvcInit_context_failure_skips_shared_teardown :
    Ev.report SERVICE_STOPPED 1 0 ∈ SvcInit envCtxFail ∧
    Ev.closeStopHandle ∈ SvcInit envCtxFail ∧
    Ev.destroyContext ∉ SvcInit envCtxFail ∧
    Ev.deleteConfig ∉ SvcInit envCtxFail := by
  decide

/-- Claim C3 (amended): for every startup failure at a checkpoint after
stop-event creation, the service reports `STOPPED` exactly once, with
the non-zero Win32 exit code 1, and the teardown actions each execute
at most once — the stop handle is closed exactly once in every case;
for failures at configuration read, listener setup or event-loop
retrieval, control falls through to the shared teardown path, so the
context is destroyed and the configuration released exactly once; a
context-creation failure instead closes only the stop handle inline
(there is no context or configuration to free), and in no case is the
process exited abruptly. -/
theorem SvcInit_startup_failure_teardown (env : SvcEnv)
    (hce : env.createEventOk = true)
    (hfail : env.contextCreateOk = false ∨ env.readConfigOk = false ∨
             env.serverListenOk = false ∨ env.getEventloopOk = false) :
    Ev.report SERVICE_STOPPED 1 0 ∈ SvcInit env ∧
    (SvcInit env).count (Ev.report SERVICE_STOPPED 1 0) = 1 ∧
    (SvcInit env).count Ev.closeStopHandle = 1 ∧
    (env.contextCreateOk = true →
      (SvcInit env).count Ev.destroyContext = 1 ∧
      (SvcInit env).count Ev.deleteConfig = 1) ∧
    (env.contextCreateOk = false →
      (SvcInit env).count Ev.destroyContext = 0 ∧
      (SvcInit env).count Ev.deleteConfig = 0) := by
  obtain ⟨ce, cc, rc, rv, sl, el, ac, ld, polls⟩ := env
  cases ce
  · exact absurd hce (by simp)
  · cases cc <;> cases rc <;> cases sl <;> cases el <;>
      by_cases hac : ac > 1 <;>
        simp_all [SvcInit, tidySeq, List.count_cons, List.count_append]
    all_goals simp [if_neg (by omega : ¬ (1 < ac)), List.count_cons]

/-- Witness for the amended C3 at the concrete runs `envCtxFail`
(context-creation failure: stop handle closed once, nothing else freed)
and `envCfgFail` (configuration-read failure: shared teardown runs
once). -/
theorem SvcInit_startup_failure_teardown_witness :
    (SvcInit envCtxFail).count Ev.closeStopHandle = 1 ∧
    (SvcInit envCtxFail).count Ev.destroyContext = 0 ∧
    (SvcInit envCtxFail).count Ev.deleteConfig = 0 ∧
    (SvcInit envCfgFail).count Ev.destroyContext = 1 ∧
    (SvcInit envCfgFail).count Ev.deleteConfig = 1 :=
  ⟨(SvcInit_startup_failure_teardown envCtxFail rfl (Or.inl rfl)).2.2.1,
   ((SvcInit_startup_failure_teardown envCtxFail rfl (Or.inl rfl)).2.2.2.2 rfl).1,
   ((SvcInit_startup_failure_teardown envCtxFail rfl (Or.inl rfl)).2.2.2.2 rfl).2,
   ((SvcInit_startup_failure_teardown envCfgFail rfl
       (Or.inr (Or.inl rfl))).2.2.2.1 rfl).1,
   ((SvcInit_startup_failure_teardown envCfgFail rfl
       (Or.inr (Or.inl rfl))).2.2.2.1 rfl).2⟩

/-- Claim C6: with the checkpoint counter at its static initializer 1
(a fresh service invocation), a reported record carries checkpoint 0
exactly when the reported state is `RUNNING` or `STOPPED`, and the
checkpoints of the consecutive reports with other states are exactly
1, 2, 3, ... — strictly increasing, starting from 1.  The length bound
keeps the 32-bit counter from wrapping (any real invocation performs
far fewer reports). -/
theorem ReportSvcStatus_checkpoint_discipline (calls : List (Nat × Nat × Nat))
    (hlen : calls.length < 4294967296) :
    (∀ st ∈ reportSeq calls 1,
        (st.checkPoint = 0 ↔
          (st.currentState = SERVICE_RUNNING ∨
           st.currentState = SERVICE_STOPPED))) ∧
    ((reportSeq calls 1).filter
        (fun st => !isTerminalReport st.currentState)).map
          SvcStatusRec.checkPoint
      = List.range' 1 (calls.filter (fun c => !isTerminalReport c.1)).length := by
  have haux := reportSeq_checkpoint_aux calls 1 (le_refl 1) (by omega)
  refine ⟨?_, haux.2⟩
  intro st hst
  rw [haux.1 st hst]
  simp [isTerminalReport]

/-- Witness for C6 on the report sequence of a full successful
invocation that is then stopped (`svcCallSeq`): the six non-terminal
reports carry checkpoints exactly 1 through 6. -/
theorem ReportSvcStatus_checkpoint_discipline_witness :
    ((reportSeq svcCallSeq 1).filter
        (fun st => !isTerminalReport st.currentState)).map
          SvcStatusRec.checkPoint
      = List.range' 1 6 :=
  ((ReportSvcStatus_checkpoint_discipline svcCallSeq (by decide)).2).trans
    (by decide)

/-- Counterexample to claim C7 as stated: starting from a machine with
neither entry present, an install in which only `CreateService` fails
(a common failure — for example the service already registered) ends
with the event-log registry entry present and no service registration:
exactly the orphaned state the claim says the ordering prevents.  The
orphan arises because install creates the event-log entry first. -/
theorem SvcInstall_orphans_eventlog_entry :
    (SvcInstall installCreateServiceFails emptyWorld).1.eventLogPresent = true ∧
    (SvcInstall installCreateServiceFails emptyWorld).1.servicePresent = false ∧
    (SvcInstall installCreateServiceFails emptyWorld).2.2 = false := by
  decide

/-- Claim C7 (amended): installation creates the event-log registry
entries before the service registration is created, and removal
deletes the service registration before deleting the event-log
subtree, mirroring acquisition order in reverse; consequently a
failure between the two steps (service-manager access or service
creation failing during install) leaves the event-log entry present
without a corresponding service registration. -/
theorem install_remove_eventlog_ordering (ie : InstallEnv) (re : RemoveEnv)
    (w w2 : World) :
    (StepEv.createService ∈ (SvcInstall ie w).2.1 →
      StepEv.createEventLogKey ∈ (SvcInstall ie w).2.1 ∧
      List.indexOf StepEv.createEventLogKey (SvcInstall ie w).2.1 <
        List.indexOf StepEv.createService (SvcInstall ie w).2.1) ∧
    (StepEv.deleteEventLogKey ∈ (SvcRemove re w2).2.1 →
      StepEv.deleteService ∈ (SvcRemove re w2).2.1 ∧
      List.indexOf StepEv.deleteService (SvcRemove re w2).2.1 <
        List.indexOf StepEv.deleteEventLogKey (SvcRemove re w2).2.1) ∧
    (ie.getModuleFileNameOk = true → ie.reg.createKeyOk = true →
      (ie.openSCMOk = false ∨ ie.createServiceOk = false) →
      (SvcInstall ie w).1.eventLogPresent = true ∧
      (SvcInstall ie w).1.servicePresent = w.servicePresent ∧
      (SvcInstall ie w).2.2 = false) :=
  ⟨SvcInstall_eventlog_before_service ie w,
   SvcRemove_service_before_eventlog re w2,
   fun h1 h2 h3 => SvcInstall_orphan_aux ie w h1 h2 h3⟩

/-- Witness for the amended C7: the ordering facts on the fully
successful install and remove traces, and the orphaned state after the
install in which only `CreateService` fails. -/
theorem install_remove_eventlog_ordering_witness :
    (StepEv.createEventLogKey ∈
        (SvcInstall cmdEnvAllOk.installEnv emptyWorld).2.1 ∧
      List.indexOf StepEv.createEventLogKey
          (SvcInstall cmdEnvAllOk.installEnv emptyWorld).2.1 <
        List.indexOf StepEv.createService
          (SvcInstall cmdEnvAllOk.installEnv emptyWorld).2.1) ∧
    (StepEv.deleteService ∈ (SvcRemove cmdEnvAllOk.removeEnv emptyWorld).2.1 ∧
      List.indexOf StepEv.deleteService
          (SvcRemove cmdEnvAllOk.removeEnv emptyWorld).2.1 <
        List.indexOf StepEv.deleteEventLogKey
          (SvcRemove cmdEnvAllOk.removeEnv emptyWorld).2.1) ∧
    (SvcInstall installCreateServiceFails emptyWorld).1.eventLogPresent = true :=
  ⟨(install_remove_eventlog_ordering cmdEnvAllOk.installEnv
      cmdEnvAllOk.removeEnv emptyWorld emptyWorld).1 (by decide),
   (install_remove_eventlog_ordering cmdEnvAllOk.installEnv
      cmdEnvAllOk.removeEnv emptyWorld emptyWorld).2.1 (by decide),
   ((install_remove_eventlog_ordering installCreateServiceFails
      cmdEnvAllOk.removeEnv emptyWorld emptyWorld).2.2 rfl rfl
      (Or.inr rfl)).1⟩

/-- Claim C9: a command token that is none of install, remove, service,
start, stop (compared case-insensitively) makes the dispatcher exit
with failure after writing a diagnostic naming the token to standard
error; a recognized token whose action completes without an OS-call
failure makes the process exit with success. -/
theorem windows_service_command_contract (env : CmdEnv) (arg : String)
    (loglevel : Nat) :
    (recognizedCmd arg = false →
      windows_service_command env arg loglevel =
        ⟨ExitStatus.failure, ["Unknown Windows option " ++ arg]⟩) ∧
    (recognizedCmd arg = true → actionCompletes env arg loglevel = true →
      (windows_service_command env arg loglevel).status =
        ExitStatus.success) := by
  constructor
  · intro h
    simp only [recognizedCmd, Bool.or_eq_false_iff] at h
    obtain ⟨⟨⟨⟨h1, h2⟩, h3⟩, h4⟩, h5⟩ := h
    simp [windows_service_command, h1, h2, h3, h4, h5]
  · intro hrec hact
    simp only [windows_service_command, actionCompletes] at hact ⊢
    by_cases e1 : lstrcmpiEq arg "install"
    · simp_all
    · by_cases e2 : lstrcmpiEq arg "remove"
      · simp_all
      · by_cases e3 : lstrcmpiEq arg "service"
        · simp_all [SvcService]
        · by_cases e4 : lstrcmpiEq arg "start"
          · simp_all
          · by_cases e5 : lstrcmpiEq arg "stop"
            · simp_all
            · simp_all [recognizedCmd]

/-- Witness for C9: the unknown token "bogus" fails with the
diagnostic naming it; the recognized tokens "INSTALL" (upper case) and
"stop" succeed when every OS call succeeds. -/
theorem windows_service_command_contract_witness :
    windows_service_command cmdEnvAllOk "bogus" 0 =
      ⟨ExitStatus.failure, ["Unknown Windows option " ++ "bogus"]⟩ ∧
    (windows_service_command cmdEnvAllOk "INSTALL" 0).status =
      ExitStatus.success ∧
    (windows_service_command cmdEnvAllOk "stop" 3).status =
      ExitStatus.success :=
  ⟨(windows_service_command_contract cmdEnvAllOk "bogus" 0).1 (by decide),
   (windows_service_command_contract cmdEnvAllOk "INSTALL" 0).2
     (by decide) (by decide),
   (windows_service_command_contract cmdEnvAllOk "stop" 3).2
     (by decide) (by decide)⟩

end Stubby
